import Mathlib

/-!
Verification of the stream-supervisor selfbot (index.js and its variant).

The program keeps one ffmpeg transcoder subprocess and one Discord voice
connection alive, restarts them on failure, and is driven by DM commands
from a single owner. We embed the mutable module-level state of the script
as a World structure and each function of the source (connectVoice,
setupPlayer, startStream, stopStream, restartStream, the message handler)
as a function on World. Asynchronous callbacks (process exit, timers,
player idle and error events, voice disconnects) are modelled as events in
a small step relation; scheduled setTimeout callbacks are modelled as
pending timer entries that a later event consumes.

Modelling conventions, stated once:
- Subprocess and session handles are values carried in the World. Handles
  that the script overwrites are moved to a graveyard list (oldProcs,
  oldSessions) so that liveness of every object ever created is observable.
- The voice library destroy operation is modelled as idempotent, following
  the external-interface description of the spec (section 4.2); the library
  itself is not part of this repository.
- JS numbers are modelled as rationals; parseFloat is modelled on decimal
  literals with optional sign, fraction and exponent, returning none for
  NaN.
- Statements that throw (a TypeError from accessing a field of undefined,
  or spawning with an undefined argument) abort the rest of the enclosing
  synchronous code; functions that can throw return a Bool that is false
  when they threw, and the returned World keeps all mutations made before
  the throw point, as in JS.
- Code inside a promise then-callback (startStream inside restartStream)
  runs after the surrounding function; we execute it in the same atomic
  step, and a throw inside it does not abort the message handler.
-/

/-- One ffmpeg subprocess: its argument list and whether it is still alive
(not yet force-killed). -/
structure Proc where
  args : List String
  alive : Bool
deriving DecidableEq, Repr

/-- Inline-volume audio resource wrapping the ffmpeg stdout. -/
structure Resource where
  volume : ℚ
deriving DecidableEq, Repr

/-- Playback state of the audio player: idle, or playing a resource. -/
inductive PlayerSt
  | Idle
  | Playing (r : Resource)
deriving DecidableEq, Repr

/-- The audio player object. The id field tags object identity so that we
can state that the same player object is reused across reconnects. -/
structure Player where
  id : Nat
  st : PlayerSt
deriving DecidableEq, Repr

/-- One voice connection: target channel, whether it has been destroyed,
and which player object is subscribed to it. -/
structure Session where
  channelId : String
  alive : Bool
  subscribedPlayer : Option Nat
deriving DecidableEq, Repr

/-- Kinds of pending setTimeout callbacks in the script: a startStream
respawn and a connectVoice retry. -/
inductive TimerKind
  | startStreamT
  | reconnectT
deriving DecidableEq, Repr

/-- Outcome of one connectVoice attempt, covering its external await
points: the channel fetch rejects, the connection reaches Ready, or the
wait for Ready fails (timeout). -/
inductive COutcome
  | fetchFail
  | ready
  | readyTimeout
deriving DecidableEq, Repr

/-- The module-level mutable state of the script, plus graveyards and the
pending-timer list needed to observe liveness and scheduled callbacks. -/
structure World where
  currentVoiceChannelId : Option String
  STREAM_URL : Option String
  COOKIE : String
  isStreaming : Bool
  ffmpegProcess : Option Proc
  oldProcs : List Proc
  spawnCount : Nat
  connection : Option Session
  oldSessions : List Session
  audioPlayer : Option Player
  playersCreated : Nat
  handlerRegistrations : Nat
  timers : List (Nat × TimerKind)
deriving DecidableEq, Repr

/-- Constant RECONNECT_INTERVAL = 30000 from the source. -/
def RECONNECT_INTERVAL : Nat := 30000

/-- Constant FF_RESTART_DELAY = 5000 from the source. -/
def FF_RESTART_DELAY : Nat := 5000

/-- Owner id constant; the source reads it from the environment with a
placeholder fallback. The theorems only compare against it. -/
def OWNER_ID : String := "YOUR_OWNER_ID_HERE"

/-- Initial module state of the script at load time. -/
def initialWorld : World where
  currentVoiceChannelId := none
  STREAM_URL := some "https://tv.nknews.org/tvdash/stream.mpd"
  COOKIE := ""
  isStreaming := false
  ffmpegProcess := none
  oldProcs := []
  spawnCount := 0
  connection := none
  oldSessions := []
  audioPlayer := none
  playersCreated := 0
  handlerRegistrations := 0
  timers := []

/-- Argument list built by startStream for the ffmpeg spawn, verbatim from
the source: the -re flag, the optional Cookie header pair (JS truthiness of
the cookie string: present iff nonempty), the input url, fixed analysis and
log flags, and the opus output over stdout. -/
def mkFfmpegArgs (cookie url : String) : List String :=
  ["-re"]
    ++ (if cookie ≠ "" then ["-headers", "Cookie: " ++ cookie] else [])
    ++ ["-i", url,
        "-analyzeduration", "0",
        "-loglevel", "0",
        "-acodec", "libopus",
        "-f", "opus",
        "pipe:1"]

/-- Schedules a connectVoice retry, modelling setTimeout(connectVoice,
RECONNECT_INTERVAL). -/
def scheduleReconnect (w : World) : World :=
  { w with timers := (RECONNECT_INTERVAL, TimerKind.reconnectT) :: w.timers }

/-- Schedules a startStream respawn, modelling setTimeout(startStream,
FF_RESTART_DELAY). -/
def scheduleRespawn (w : World) : World :=
  { w with timers := (FF_RESTART_DELAY, TimerKind.startStreamT) :: w.timers }

/-- Force-kill of the current ffmpeg handle, modelling
ffmpegProcess.kill with SIGKILL: the process object becomes dead in place;
the handle is not cleared. -/
def killCurrentProc (w : World) : World :=
  { w with ffmpegProcess := w.ffmpegProcess.map (fun p => { p with alive := false }) }

/-- Creation branch of setupPlayer: createAudioPlayer plus the one-time
registration of the Idle and error handlers, executed only when no player
exists yet. -/
def ensurePlayer (w : World) : World :=
  match w.audioPlayer with
  | none =>
      { w with audioPlayer := some { id := w.playersCreated, st := PlayerSt.Idle },
               playersCreated := w.playersCreated + 1,
               handlerRegistrations := w.handlerRegistrations + 1 }
  | some _ => w

/-- Function setupPlayer from the source: returns unless a connection
exists, creates the player only if none exists, then subscribes the player
to the current connection. -/
def setupPlayer (w : World) : World :=
  match w.connection with
  | none => w
  | some s =>
      let w1 := ensurePlayer w
      match w1.audioPlayer with
      | none => w1
      | some p =>
          { w1 with connection := some { s with subscribedPlayer := some p.id } }

/-- Function connectVoice from the source, one attempt executed atomically
with its external outcome given: returns if no channel id is set (JS
falsiness; the stored id is never the empty string because command tokens
are nonempty); on fetch failure the catch schedules a retry; otherwise the
old connection is destroyed, a new session is created and stored, and then
either the Ready wait succeeds and setupPlayer runs, or it fails and the
catch schedules a retry while the fresh session stays in the handle. -/
def connectVoice (w : World) (o : COutcome) : World :=
  match w.currentVoiceChannelId with
  | none => w
  | some ch =>
      match o with
      | COutcome.fetchFail => scheduleReconnect w
      | COutcome.ready =>
          let w1 := { w with
            oldSessions :=
              (match w.connection with
               | some s => { s with alive := false } :: w.oldSessions
               | none => w.oldSessions),
            connection := some { channelId := ch, alive := true, subscribedPlayer := none } }
          setupPlayer w1
      | COutcome.readyTimeout =>
          let w1 := { w with
            oldSessions :=
              (match w.connection with
               | some s => { s with alive := false } :: w.oldSessions
               | none => w.oldSessions),
            connection := some { channelId := ch, alive := true, subscribedPlayer := none } }
          scheduleReconnect w1

/-- Function startStream from the source. Returns early when no connection
object exists; force-kills the previous process if present; spawns ffmpeg
with the current COOKIE and STREAM_URL (spawn throws if the url is the
undefined value, modelling the Node rejection of non-string arguments);
wraps stdout in a fresh resource with inline volume set to 1.0 and plays
it (play throws if the player object does not exist yet); finally sets
isStreaming. The Bool is false when a statement threw. -/
def startStream (w : World) : World × Bool :=
  match w.connection with
  | none => (w, true)
  | some _ =>
      let w1 := killCurrentProc w
      match w1.STREAM_URL with
      | none => (w1, false)
      | some url =>
          let w2 := { w1 with
            ffmpegProcess := some { args := mkFfmpegArgs w1.COOKIE url, alive := true },
            oldProcs :=
              (match w1.ffmpegProcess with
               | some p => p :: w1.oldProcs
               | none => w1.oldProcs),
            spawnCount := w1.spawnCount + 1 }
          match w2.audioPlayer with
          | none => (w2, false)
          | some p =>
              ({ w2 with audioPlayer := some { p with st := PlayerSt.Playing { volume := 1 } },
                         isStreaming := true }, true)

/-- Function stopStream from the source: force-kills the process, stops
the player, destroys the connection in place (the handle is not cleared;
destroy is modelled idempotent per the spec interface), clears the process
handle and the streaming flag. -/
def stopStream (w : World) : World :=
  let w1 := killCurrentProc w
  { w1 with
    audioPlayer := w1.audioPlayer.map (fun p => { p with st := PlayerSt.Idle }),
    connection := w1.connection.map (fun s => { s with alive := false }),
    oldProcs :=
      (match w1.ffmpegProcess with
       | some p => p :: w1.oldProcs
       | none => w1.oldProcs),
    ffmpegProcess := none,
    isStreaming := false }

/-- Function restartStream from the source: stopStream, then connectVoice,
then startStream in the promise callback; a throw inside that callback is
an unhandled rejection and does not abort the caller. -/
def restartStream (w : World) (o : COutcome) : World × Bool :=
  startStream (connectVoice (stopStream w) o)

/-- Whitespace test matching the regex class in the split call of the
source. -/
def isWS (c : Char) : Bool :=
  c = ' ' || c = '\t' || c = '\n' || c = '\r'

/-- Splits a character list at whitespace runs, keeping nonempty tokens. -/
def splitWS : List Char → List Char → List String
  | [], acc => if acc.isEmpty then [] else [String.mk acc.reverse]
  | c :: cs, acc =>
      if isWS c then
        (if acc.isEmpty then splitWS cs [] else String.mk acc.reverse :: splitWS cs [])
      else splitWS cs (c :: acc)

/-- Tokenization of an incoming message, modelling trim followed by a
split on whitespace runs: the destructured head is the command word and
the rest are arguments; an all-whitespace message yields no tokens and the
command word defaults to the empty string, as the JS destructuring of the
singleton empty-string array does. -/
def tokenize (s : String) : List String :=
  splitWS s.data []

/-- Lower-casing of the command verb, modelling toLowerCase. -/
def lowerStr (s : String) : String :=
  String.mk (s.data.map Char.toLower)

/-- Numeric value of a digit list. -/
def natOfDigits (l : List Char) : Nat :=
  l.foldl (fun n c => n * 10 + (c.toNat - 48)) 0

/-- Exponent part of a JS float literal: optional sign then digits; an
invalid exponent suffix is ignored (exponent zero). -/
def parseExpPart (cs : List Char) : Int :=
  match cs with
  | '-' :: r =>
      let ds := r.takeWhile Char.isDigit
      if ds.isEmpty then 0 else -(natOfDigits ds : Int)
  | '+' :: r =>
      let ds := r.takeWhile Char.isDigit
      if ds.isEmpty then 0 else (natOfDigits ds : Int)
  | _ =>
      let ds := cs.takeWhile Char.isDigit
      if ds.isEmpty then 0 else (natOfDigits ds : Int)

/-- Modelled from the JS builtin parseFloat used at the volume call site:
reads an optional sign, a decimal significand and an optional exponent
from the front of the token and ignores trailing garbage; returns none
when no digit is consumed (NaN). -/
def parseFloatQ (s : String) : Option ℚ :=
  let cs := s.data
  let signNeg : Bool := match cs with | '-' :: _ => true | _ => false
  let cs1 : List Char := match cs with
    | '-' :: r => r
    | '+' :: r => r
    | _ => cs
  let intPart := cs1.takeWhile Char.isDigit
  let rest1 := cs1.dropWhile Char.isDigit
  let fracPart : List Char := match rest1 with
    | '.' :: r => r.takeWhile Char.isDigit
    | _ => []
  let rest2 : List Char := match rest1 with
    | '.' :: r => r.dropWhile Char.isDigit
    | _ => rest1
  if intPart.isEmpty ∧ fracPart.isEmpty then none
  else
    let e : Int := match rest2 with
      | 'e' :: r => parseExpPart r
      | 'E' :: r => parseExpPart r
      | _ => 0
    let mag : ℚ :=
      if fracPart.isEmpty then (natOfDigits intPart : ℚ)
      else (natOfDigits intPart : ℚ) + (natOfDigits fracPart : ℚ) / ((10 : ℚ) ^ fracPart.length)
    let mag2 : ℚ := if e = 0 then mag else mag * (10 : ℚ) ^ e
    some (if signNeg then -mag2 else mag2)

/-- Incoming message as seen by the MessageCreate handler. -/
structure Msg where
  channelType : String
  authorId : String
  content : String
deriving DecidableEq, Repr

/-- Replies of the handler, one constructor per reply site of the source,
carrying the interpolated data a claim refers to. -/
inductive Reply
  | vcSet (id : Option String)
  | streamUrlSet (url : Option String)
  | cookieUpdated
  | useSetvcFirst
  | starting
  | streamingStarted
  | streamingStopped
  | restarting
  | reconnecting
  | volumeSet (v : ℚ)
  | usageVolume
  | statusReport
  | infoReport
  | helpText
  | unknownHint
deriving DecidableEq, Repr

/-- Result of one run of the message handler: the new module state, the
replies sent in order, and whether the handler threw before finishing. -/
structure HandlerOut where
  world : World
  replies : List Reply
  threw : Bool
deriving DecidableEq, Repr

/-- Branch of the switch for setvc and switchvc: store the channel id,
reply, and when already streaming reconnect and restart inline (a throw in
startStream aborts the handler after the reply was already sent). -/
def cmdSetvc (w : World) (args : List String) (o : COutcome) : HandlerOut :=
  let w1 := { w with currentVoiceChannelId := args.head? }
  if w1.isStreaming then
    let r := startStream (connectVoice w1 o)
    ⟨r.1, [Reply.vcSet args.head?], !r.2⟩
  else ⟨w1, [Reply.vcSet args.head?], false⟩

/-- Branch of the switch for setstream: store the url (the undefined value
when no argument is given), reply, and restart when streaming; the restart
pipeline runs in a promise callback, so its throw does not abort the
handler. -/
def cmdSetstream (w : World) (args : List String) (o : COutcome) : HandlerOut :=
  let w1 := { w with STREAM_URL := args.head? }
  if w1.isStreaming then ⟨(restartStream w1 o).1, [Reply.streamUrlSet args.head?], false⟩
  else ⟨w1, [Reply.streamUrlSet args.head?], false⟩

/-- Branch of the switch for setcookie: join the argument tokens with
single spaces, reply, and restart when streaming. -/
def cmdSetcookie (w : World) (args : List String) (o : COutcome) : HandlerOut :=
  let w1 := { w with COOKIE := String.intercalate " " args }
  if w1.isStreaming then ⟨(restartStream w1 o).1, [Reply.cookieUpdated], false⟩
  else ⟨w1, [Reply.cookieUpdated], false⟩

/-- Branch of the switch for start: a guard reply when no channel is set;
otherwise a progress reply, connect, start, and a completion reply that is
skipped when startStream throws. -/
def cmdStart (w : World) (o : COutcome) : HandlerOut :=
  match w.currentVoiceChannelId with
  | none => ⟨w, [Reply.useSetvcFirst], false⟩
  | some _ =>
      let r := startStream (connectVoice w o)
      if r.2 then ⟨r.1, [Reply.starting, Reply.streamingStarted], false⟩
      else ⟨r.1, [Reply.starting], true⟩

/-- Branch of the switch for volume, verbatim from the source: the guard
checks only that the player object exists and the parsed value is in
range; with an idle player the resource field is undefined and the volume
access throws, so no reply is sent and nothing is mutated. -/
def cmdVolume (w : World) (args : List String) : HandlerOut :=
  match w.audioPlayer, args.head?.bind parseFloatQ with
  | some p, some v =>
      if 0 ≤ v ∧ v ≤ 2 then
        match p.st with
        | PlayerSt.Playing _ =>
            ⟨{ w with audioPlayer := some { p with st := PlayerSt.Playing { volume := v } } },
             [Reply.volumeSet v], false⟩
        | PlayerSt.Idle => ⟨w, [], true⟩
      else ⟨w, [Reply.usageVolume], false⟩
  | _, _ => ⟨w, [Reply.usageVolume], false⟩

/-- The switch statement of the MessageCreate handler, dispatching on the
lower-cased command word. -/
def dispatch (w : World) (cmd : String) (args : List String) (o : COutcome) : HandlerOut :=
  if cmd = "setvc" ∨ cmd = "switchvc" then cmdSetvc w args o
  else if cmd = "setstream" then cmdSetstream w args o
  else if cmd = "setcookie" then cmdSetcookie w args o
  else if cmd = "start" then cmdStart w o
  else if cmd = "stop" then ⟨stopStream w, [Reply.streamingStopped], false⟩
  else if cmd = "restart" then ⟨(restartStream w o).1, [Reply.restarting], false⟩
  else if cmd = "reconnect" then ⟨connectVoice w o, [Reply.reconnecting], false⟩
  else if cmd = "volume" then cmdVolume w args
  else if cmd = "status" then ⟨w, [Reply.statusReport], false⟩
  else if cmd = "info" then ⟨w, [Reply.infoReport], false⟩
  else if cmd = "help" then ⟨w, [Reply.helpText], false⟩
  else ⟨w, [Reply.unknownHint], false⟩

/-- The MessageCreate handler from the source, with the connectVoice
outcome for the commands that connect supplied externally. Unauthorized
messages (not a DM, or not from the owner) return before any state change
or reply. -/
def handleMessage (w : World) (m : Msg) (o : COutcome) : HandlerOut :=
  if m.channelType ≠ "DM" ∨ m.authorId ≠ OWNER_ID then ⟨w, [], false⟩
  else
    let toks := tokenize m.content
    dispatch w (lowerStr (toks.headD "")) toks.tail o

/-- Events delivered to the single event loop: an incoming message, an
exit notification of a spawned ffmpeg process (any exit code or signal),
the firing of a scheduled respawn or reconnect timer, the player Idle and
error events, and a voice Disconnected event with whether the transport
recovered on its own within the race window. -/
inductive Event
  | message (m : Msg) (o : COutcome)
  | procExit (exitCode : Option Int)
  | fireStartStream
  | fireReconnect (o : COutcome)
  | playerIdle
  | playerError (o : COutcome)
  | voiceDisconnected (recovered : Bool)
deriving DecidableEq, Repr

/-- One event-loop step. Guards make impossible events no-ops: an exit
needs a spawned process, a timer firing consumes a matching pending entry,
player events need the player object (their handlers are registered at its
creation), and a disconnect needs a connection object. The exit handler
of the source schedules a respawn unconditionally, whatever the exit code
or signal and whatever the supervisor state. -/
def step (w : World) (e : Event) : World :=
  match e with
  | Event.message m o => (handleMessage w m o).world
  | Event.procExit _ =>
      if 0 < w.spawnCount then scheduleRespawn w else w
  | Event.fireStartStream =>
      if (FF_RESTART_DELAY, TimerKind.startStreamT) ∈ w.timers then
        (startStream { w with timers := w.timers.erase (FF_RESTART_DELAY, TimerKind.startStreamT) }).1
      else w
  | Event.fireReconnect o =>
      if (RECONNECT_INTERVAL, TimerKind.reconnectT) ∈ w.timers then
        connectVoice { w with timers := w.timers.erase (RECONNECT_INTERVAL, TimerKind.reconnectT) } o
      else w
  | Event.playerIdle =>
      if w.audioPlayer.isSome then (startStream w).1 else w
  | Event.playerError o =>
      if w.audioPlayer.isSome then (restartStream w o).1 else w
  | Event.voiceDisconnected recovered =>
      match w.connection with
      | none => w
      | some s =>
          if recovered then w
          else scheduleReconnect { w with connection := some { s with alive := false } }

/-- Event-loop execution from a state through a list of events. -/
def run (w : World) : List Event → World
  | [] => w
  | e :: es => run (step w e) es

/-- Count of ffmpeg processes ever spawned that are still alive, over the
graveyard and the current handle. -/
def liveProcCount (w : World) : Nat :=
  (w.oldProcs.filter (fun p => p.alive)).length +
    (match w.ffmpegProcess with
     | some p => if p.alive then 1 else 0
     | none => 0)

/-- Count of voice sessions ever created that are not destroyed, over the
graveyard and the current handle. -/
def liveSessionCount (w : World) : Nat :=
  (w.oldSessions.filter (fun s => s.alive)).length +
    (match w.connection with
     | some s => if s.alive then 1 else 0
     | none => 0)


lemma ensurePlayer_some {w : World} {p : Player} (hp : w.audioPlayer = some p) :
    ensurePlayer w = w := by
  simp [ensurePlayer, hp]

lemma ensurePlayer_none {w : World} (hp : w.audioPlayer = none) :
    ensurePlayer w =
      { w with audioPlayer := some { id := w.playersCreated, st := PlayerSt.Idle },
               playersCreated := w.playersCreated + 1,
               handlerRegistrations := w.handlerRegistrations + 1 } := by
  simp [ensurePlayer, hp]

lemma ensurePlayer_isSome {w : World} : (ensurePlayer w).audioPlayer.isSome := by
  cases hp : w.audioPlayer with
  | some p => rw [ensurePlayer_some hp]; simp [hp]
  | none => rw [ensurePlayer_none hp]; simp

lemma ensurePlayer_connection {w : World} : (ensurePlayer w).connection = w.connection := by
  cases hp : w.audioPlayer with
  | some p => rw [ensurePlayer_some hp]
  | none => rw [ensurePlayer_none hp]

lemma setupPlayer_noConn {w : World} (hc : w.connection = none) :
    setupPlayer w = w := by
  simp [setupPlayer, hc]

lemma setupPlayer_eq {w : World} {s : Session} {p : Player}
    (hc : w.connection = some s) (hp : (ensurePlayer w).audioPlayer = some p) :
    setupPlayer w =
      { ensurePlayer w with connection := some { s with subscribedPlayer := some p.id } } := by
  simp [setupPlayer, hc, hp]

lemma connectVoice_noChannel {w : World} {o : COutcome}
    (hch : w.currentVoiceChannelId = none) : connectVoice w o = w := by
  simp [connectVoice, hch]

lemma connectVoice_fetchFail {w : World} {ch : String}
    (hch : w.currentVoiceChannelId = some ch) :
    connectVoice w COutcome.fetchFail = scheduleReconnect w := by
  simp [connectVoice, hch]

/-- Session-replacement part of connectVoice: the destroy of the previous
connection followed by joinVoiceChannel, executed with no suspension point
in between in the source. -/
def connJoin (w : World) (ch : String) : World :=
  { w with
    oldSessions :=
      (match w.connection with
       | some s => { s with alive := false } :: w.oldSessions
       | none => w.oldSessions),
    connection := some { channelId := ch, alive := true, subscribedPlayer := none } }

lemma connectVoice_ready {w : World} {ch : String}
    (hch : w.currentVoiceChannelId = some ch) :
    connectVoice w COutcome.ready = setupPlayer (connJoin w ch) := by
  simp [connectVoice, hch, connJoin]

lemma connectVoice_readyTimeout {w : World} {ch : String}
    (hch : w.currentVoiceChannelId = some ch) :
    connectVoice w COutcome.readyTimeout = scheduleReconnect (connJoin w ch) := by
  simp [connectVoice, hch, connJoin]

lemma startStream_noConn {w : World} (hc : w.connection = none) :
    startStream w = (w, true) := by
  simp [startStream, hc]

lemma startStream_noUrl {w : World} {s : Session}
    (hc : w.connection = some s) (hu : w.STREAM_URL = none) :
    startStream w = (killCurrentProc w, false) := by
  simp [startStream, hc, killCurrentProc, hu]

/-- Prepends the content of an optional handle to a graveyard list. -/
def pushGrave {A : Type} (p? : Option A) (l : List A) : List A :=
  match p? with
  | some p => p :: l
  | none => l

lemma mem_pushGrave {A : Type} {p? : Option A} {l : List A} {t : A} :
    t ∈ pushGrave p? l ↔ (∃ p, p? = some p ∧ t = p) ∨ t ∈ l := by
  cases p? <;> simp [pushGrave, eq_comm]

/-- Spawn part of startStream: new live process with the current arguments,
previous (just killed) process handle moved to the graveyard. -/
def spawnProc (w : World) (url : String) : World :=
  { w with
    ffmpegProcess := some { args := mkFfmpegArgs w.COOKIE url, alive := true },
    oldProcs := pushGrave (w.ffmpegProcess.map (fun p => { p with alive := false })) w.oldProcs,
    spawnCount := w.spawnCount + 1 }

lemma startStream_noPlayer {w : World} {s : Session} {url : String}
    (hc : w.connection = some s) (hu : w.STREAM_URL = some url)
    (hp : w.audioPlayer = none) :
    startStream w = (spawnProc w url, false) := by
  cases hf : w.ffmpegProcess <;>
    simp [startStream, hc, hu, hp, killCurrentProc, spawnProc, pushGrave, hf]

lemma startStream_ok {w : World} {s : Session} {url : String} {p : Player}
    (hc : w.connection = some s) (hu : w.STREAM_URL = some url)
    (hp : w.audioPlayer = some p) :
    startStream w =
      ({ spawnProc w url with
          audioPlayer := some { p with st := PlayerSt.Playing { volume := 1 } },
          isStreaming := true }, true) := by
  cases hf : w.ffmpegProcess <;>
    simp [startStream, hc, hu, hp, killCurrentProc, spawnProc, pushGrave, hf]

lemma stopStream_eq {w : World} :
    stopStream w =
      { w with
        audioPlayer := w.audioPlayer.map (fun p => { p with st := PlayerSt.Idle }),
        connection := w.connection.map (fun s => { s with alive := false }),
        oldProcs := pushGrave (w.ffmpegProcess.map (fun p => { p with alive := false })) w.oldProcs,
        ffmpegProcess := none,
        isStreaming := false } := by
  cases hf : w.ffmpegProcess <;> simp [stopStream, killCurrentProc, pushGrave, hf]

/-- Reachability invariant of the event loop: every graveyard process is
dead, every graveyard session is destroyed, at most one player object was
ever created (with the handler registration count equal to the creation
count), the unique player has id 0, every session only ever has that
player subscribed, and the streaming flag implies the player exists. -/
structure WInv (w : World) : Prop where
  oldProcsDead : ∀ p ∈ w.oldProcs, p.alive = false
  oldSessionsDead : ∀ s ∈ w.oldSessions, s.alive = false
  regsEq : w.handlerRegistrations = w.playersCreated
  createdEq : w.playersCreated = (if w.audioPlayer.isSome then 1 else 0)
  playerId0 : ∀ p, w.audioPlayer = some p → p.id = 0
  connSub : ∀ s, w.connection = some s →
    s.subscribedPlayer = none ∨ s.subscribedPlayer = some 0
  oldSub : ∀ s ∈ w.oldSessions,
    s.subscribedPlayer = none ∨ s.subscribedPlayer = some 0
  streamingPlayer : w.isStreaming = true → w.audioPlayer.isSome

lemma winv_killCurrentProc {w : World} (h : WInv w) : WInv (killCurrentProc w) :=
  ⟨h.oldProcsDead, h.oldSessionsDead, h.regsEq, h.createdEq, h.playerId0,
   h.connSub, h.oldSub, h.streamingPlayer⟩

lemma winv_scheduleReconnect {w : World} (h : WInv w) : WInv (scheduleReconnect w) :=
  ⟨h.oldProcsDead, h.oldSessionsDead, h.regsEq, h.createdEq, h.playerId0,
   h.connSub, h.oldSub, h.streamingPlayer⟩

lemma winv_scheduleRespawn {w : World} (h : WInv w) : WInv (scheduleRespawn w) :=
  ⟨h.oldProcsDead, h.oldSessionsDead, h.regsEq, h.createdEq, h.playerId0,
   h.connSub, h.oldSub, h.streamingPlayer⟩

lemma winv_ensurePlayer {w : World} (h : WInv w) : WInv (ensurePlayer w) := by
  cases hp : w.audioPlayer with
  | some p => rw [ensurePlayer_some hp]; exact h
  | none =>
      have hc : w.playersCreated = 0 := by simpa [hp] using h.createdEq
      rw [ensurePlayer_none hp]
      refine ⟨h.oldProcsDead, h.oldSessionsDead, ?_, ?_, ?_, h.connSub, h.oldSub, ?_⟩
      · simpa using h.regsEq
      · simp [hc]
      · intro q hq
        simp only [Option.some.injEq] at hq
        simp [← hq, hc]
      · intro _
        simp

lemma winv_setupPlayer {w : World} (h : WInv w) : WInv (setupPlayer w) := by
  cases hc : w.connection with
  | none => rw [setupPlayer_noConn hc]; exact h
  | some s =>
      have h1 : WInv (ensurePlayer w) := winv_ensurePlayer h
      cases hp : (ensurePlayer w).audioPlayer with
      | none =>
          exfalso
          have := ensurePlayer_isSome (w := w)
          simp [hp] at this
      | some p =>
          rw [setupPlayer_eq hc hp]
          have hid : p.id = 0 := h1.playerId0 p hp
          refine ⟨h1.oldProcsDead, h1.oldSessionsDead, h1.regsEq, h1.createdEq,
                  h1.playerId0, ?_, h1.oldSub, h1.streamingPlayer⟩
          intro t ht
          simp only [Option.some.injEq] at ht
          simp [← ht, hid]

lemma winv_connJoin {w : World} (h : WInv w) (ch : String) : WInv (connJoin w ch) := by
  unfold connJoin
  cases hcn : w.connection with
  | none =>
      refine ⟨h.oldProcsDead, ?_, h.regsEq, h.createdEq, h.playerId0, ?_, ?_, h.streamingPlayer⟩
      · simpa using h.oldSessionsDead
      · intro t ht
        simp only [Option.some.injEq] at ht
        simp [← ht]
      · simpa using h.oldSub
  | some s =>
      refine ⟨h.oldProcsDead, ?_, h.regsEq, h.createdEq, h.playerId0, ?_, ?_, h.streamingPlayer⟩
      · intro t ht
        simp only [List.mem_cons] at ht
        rcases ht with rfl | hmem
        · rfl
        · exact h.oldSessionsDead t hmem
      · intro t ht
        simp only [Option.some.injEq] at ht
        simp [← ht]
      · intro t ht
        simp only [List.mem_cons] at ht
        rcases ht with rfl | hmem
        · exact h.connSub s hcn
        · exact h.oldSub t hmem

lemma winv_connectVoice {w : World} (h : WInv w) (o : COutcome) :
    WInv (connectVoice w o) := by
  cases hch : w.currentVoiceChannelId with
  | none => rw [connectVoice_noChannel hch]; exact h
  | some ch =>
      cases o with
      | fetchFail => rw [connectVoice_fetchFail hch]; exact winv_scheduleReconnect h
      | ready => rw [connectVoice_ready hch]; exact winv_setupPlayer (winv_connJoin h ch)
      | readyTimeout =>
          rw [connectVoice_readyTimeout hch]
          exact winv_scheduleReconnect (winv_connJoin h ch)

lemma winv_spawnProc {w : World} (h : WInv w) (url : String) :
    WInv (spawnProc w url) := by
  refine ⟨?_, h.oldSessionsDead, h.regsEq, h.createdEq, h.playerId0,
          h.connSub, h.oldSub, h.streamingPlayer⟩
  intro t ht
  rcases mem_pushGrave.mp ht with ⟨p, hp, rfl⟩ | hmem
  · cases hf : w.ffmpegProcess <;> simp [hf] at hp
    simp [← hp]
  · exact h.oldProcsDead t hmem

lemma winv_startStream {w : World} (h : WInv w) : WInv (startStream w).1 := by
  cases hc : w.connection with
  | none => rw [startStream_noConn hc]; exact h
  | some s =>
      cases hu : w.STREAM_URL with
      | none => rw [startStream_noUrl hc hu]; exact winv_killCurrentProc h
      | some url =>
          cases hp : w.audioPlayer with
          | none => rw [startStream_noPlayer hc hu hp]; exact winv_spawnProc h url
          | some p =>
              rw [startStream_ok hc hu hp]
              have h2 := winv_spawnProc h url
              refine ⟨h2.oldProcsDead, h2.oldSessionsDead, h2.regsEq, ?_, ?_,
                      h2.connSub, h2.oldSub, ?_⟩
              · have := h.createdEq
                simp only [hp] at this
                simpa using this
              · intro q hq
                simp only [Option.some.injEq] at hq
                have := h.playerId0 p hp
                simp [← hq, this]
              · intro _
                simp

lemma winv_stopStream {w : World} (h : WInv w) : WInv (stopStream w) := by
  rw [stopStream_eq]
  refine ⟨?_, h.oldSessionsDead, h.regsEq, ?_, ?_, ?_, h.oldSub, ?_⟩
  · intro t ht
    rcases mem_pushGrave.mp ht with ⟨p, hp, rfl⟩ | hmem
    · cases hf : w.ffmpegProcess <;> simp [hf] at hp
      simp [← hp]
    · exact h.oldProcsDead t hmem
  · have := h.createdEq
    cases hp : w.audioPlayer <;> simp only [hp] at this <;> simpa using this
  · intro q hq
    cases hp : w.audioPlayer with
    | none => simp [hp] at hq
    | some p =>
        simp only [hp, Option.map_some', Option.some.injEq] at hq
        have := h.playerId0 p hp
        simp [← hq, this]
  · intro t ht
    cases hcn : w.connection with
    | none => simp [hcn] at ht
    | some s =>
        simp only [hcn, Option.map_some', Option.some.injEq] at ht
        have := h.connSub s hcn
        simp only [← ht]
        simpa using this
  · intro hs
    simp at hs

lemma winv_restartStream {w : World} (h : WInv w) (o : COutcome) :
    WInv (restartStream w o).1 :=
  winv_startStream (winv_connectVoice (winv_stopStream h) o)

lemma winv_mirror {w w2 : World} (h : WInv w)
    (h1 : w2.oldProcs = w.oldProcs) (h2 : w2.oldSessions = w.oldSessions)
    (h3 : w2.handlerRegistrations = w.handlerRegistrations)
    (h4 : w2.playersCreated = w.playersCreated)
    (h5 : w2.audioPlayer = w.audioPlayer) (h6 : w2.connection = w.connection)
    (h7 : w2.isStreaming = w.isStreaming) : WInv w2 := by
  refine ⟨?_, ?_, ?_, ?_, ?_, ?_, ?_, ?_⟩ <;>
    simp only [h1, h2, h3, h4, h5, h6, h7] <;>
    first
      | exact h.oldProcsDead
      | exact h.oldSessionsDead
      | exact h.regsEq
      | exact h.createdEq
      | exact h.playerId0
      | exact h.connSub
      | exact h.oldSub
      | exact h.streamingPlayer

lemma winv_cmdSetvc {w : World} (h : WInv w) (args : List String) (o : COutcome) :
    WInv (cmdSetvc w args o).world := by
  have hbase : WInv { w with currentVoiceChannelId := args.head? } :=
    winv_mirror h rfl rfl rfl rfl rfl rfl rfl
  simp only [cmdSetvc]
  split
  · exact winv_startStream (winv_connectVoice hbase o)
  · exact hbase

lemma winv_cmdSetstream {w : World} (h : WInv w) (args : List String) (o : COutcome) :
    WInv (cmdSetstream w args o).world := by
  have hbase : WInv { w with STREAM_URL := args.head? } :=
    winv_mirror h rfl rfl rfl rfl rfl rfl rfl
  simp only [cmdSetstream]
  split
  · exact winv_restartStream hbase o
  · exact hbase

lemma winv_cmdSetcookie {w : World} (h : WInv w) (args : List String) (o : COutcome) :
    WInv (cmdSetcookie w args o).world := by
  have hbase : WInv { w with COOKIE := String.intercalate " " args } :=
    winv_mirror h rfl rfl rfl rfl rfl rfl rfl
  simp only [cmdSetcookie]
  split
  · exact winv_restartStream hbase o
  · exact hbase

lemma winv_cmdStart {w : World} (h : WInv w) (o : COutcome) :
    WInv (cmdStart w o).world := by
  simp only [cmdStart]
  cases hch : w.currentVoiceChannelId with
  | none => exact h
  | some ch =>
      simp only
      have := winv_startStream (winv_connectVoice h o)
      split <;> exact this

lemma winv_setVolume {w : World} {p : Player} {v : ℚ} (h : WInv w)
    (hp : w.audioPlayer = some p) :
    WInv { w with audioPlayer := some { p with st := PlayerSt.Playing { volume := v } } } := by
  refine ⟨h.oldProcsDead, h.oldSessionsDead, h.regsEq, ?_, ?_, h.connSub, h.oldSub, ?_⟩
  · have := h.createdEq
    simp only [hp] at this
    simpa using this
  · intro q hq
    simp only [Option.some.injEq] at hq
    have := h.playerId0 p hp
    simp [← hq, this]
  · intro _
    simp

lemma winv_cmdVolume {w : World} (h : WInv w) (args : List String) :
    WInv (cmdVolume w args).world := by
  rw [cmdVolume.eq_def]
  split
  · next p v hp hv =>
      split
      · split
        · next r heq => exact winv_setVolume h hp
        · exact h
      · exact h
  · exact h

set_option maxHeartbeats 1000000 in
lemma winv_dispatch {w : World} (h : WInv w) (cmd : String) (args : List String)
    (o : COutcome) : WInv (dispatch w cmd args o).world := by
  simp only [dispatch]
  split
  · exact winv_cmdSetvc h args o
  · split
    · exact winv_cmdSetstream h args o
    · split
      · exact winv_cmdSetcookie h args o
      · split
        · exact winv_cmdStart h o
        · split
          · exact winv_stopStream h
          · split
            · exact winv_restartStream h o
            · split
              · exact winv_connectVoice h o
              · split
                · exact winv_cmdVolume h args
                · split
                  · exact h
                  · split
                    · exact h
                    · split
                      · exact h
                      · exact h

lemma winv_handleMessage {w : World} (h : WInv w) (m : Msg) (o : COutcome) :
    WInv (handleMessage w m o).world := by
  simp only [handleMessage]
  split
  · exact h
  · exact winv_dispatch h _ _ o

lemma winv_step {w : World} (h : WInv w) (e : Event) : WInv (step w e) := by
  cases e with
  | message m o =>
      simp only [step]
      exact winv_handleMessage h m o
  | procExit c =>
      simp only [step]
      split
      · exact winv_scheduleRespawn h
      · exact h
  | fireStartStream =>
      simp only [step]
      split
      · exact winv_startStream (winv_mirror h rfl rfl rfl rfl rfl rfl rfl)
      · exact h
  | fireReconnect o =>
      simp only [step]
      split
      · have h2 : WInv { w with timers := w.timers.erase (RECONNECT_INTERVAL, TimerKind.reconnectT) } :=
          winv_mirror h rfl rfl rfl rfl rfl rfl rfl
        exact winv_connectVoice h2 o
      · exact h
  | playerIdle =>
      simp only [step]
      split
      · exact winv_startStream h
      · exact h
  | playerError o =>
      simp only [step]
      split
      · exact winv_restartStream h o
      · exact h
  | voiceDisconnected recovered =>
      simp only [step]
      cases hcn : w.connection with
      | none => exact h
      | some s =>
          simp only
          split
          · exact h
          · refine winv_scheduleReconnect ?_
            refine ⟨h.oldProcsDead, h.oldSessionsDead, h.regsEq, h.createdEq,
                    h.playerId0, ?_, h.oldSub, h.streamingPlayer⟩
            intro t ht
            simp only [Option.some.injEq] at ht
            have := h.connSub s hcn
            simp only [← ht]
            simpa using this

lemma winv_initialWorld : WInv initialWorld := by
  refine ⟨?_, ?_, ?_, ?_, ?_, ?_, ?_, ?_⟩ <;> simp [initialWorld]

lemma winv_run {w : World} (h : WInv w) (es : List Event) : WInv (run w es) := by
  induction es generalizing w with
  | nil => exact h
  | cons e es ih => exact ih (winv_step h e)

lemma filter_nil_of_false {A : Type} {pred : A → Bool} {l : List A}
    (h : ∀ a ∈ l, pred a = false) : l.filter pred = [] := by
  induction l with
  | nil => rfl
  | cons a l ih =>
      have ha := h a (List.mem_cons_self a l)
      simp only [List.filter_cons, ha]
      exact ih (fun b hb => h b (List.mem_cons_of_mem a hb))

lemma liveProcCount_le_one {w : World} (h : WInv w) : liveProcCount w ≤ 1 := by
  unfold liveProcCount
  rw [filter_nil_of_false (fun p hp => h.oldProcsDead p hp)]
  cases hf : w.ffmpegProcess with
  | none => simp
  | some p => cases hp : p.alive <;> simp [hp]

lemma liveSessionCount_le_one {w : World} (h : WInv w) : liveSessionCount w ≤ 1 := by
  unfold liveSessionCount
  rw [filter_nil_of_false (fun s hs => h.oldSessionsDead s hs)]
  cases hc : w.connection with
  | none => simp
  | some s => cases hs : s.alive <;> simp [hs]

lemma liveProcCount_stopStream {w : World} (h : WInv w) :
    liveProcCount (stopStream w) = 0 := by
  have h2 := winv_stopStream h
  unfold liveProcCount
  rw [filter_nil_of_false (fun p hp => h2.oldProcsDead p hp)]
  rw [stopStream_eq]
  simp

lemma liveSessionCount_stopStream {w : World} (h : WInv w) :
    liveSessionCount (stopStream w) = 0 := by
  have h2 := winv_stopStream h
  unfold liveSessionCount
  rw [filter_nil_of_false (fun s hs => h2.oldSessionsDead s hs)]
  rw [stopStream_eq]
  cases hc : w.connection <;> simp

lemma setupPlayer_oldSessions {w : World} : (setupPlayer w).oldSessions = w.oldSessions := by
  cases hc : w.connection with
  | none => rw [setupPlayer_noConn hc]
  | some s =>
      cases hp : (ensurePlayer w).audioPlayer with
      | none =>
          exfalso
          have := ensurePlayer_isSome (w := w)
          simp [hp] at this
      | some p =>
          rw [setupPlayer_eq hc hp]
          cases hq : w.audioPlayer with
          | some q => rw [ensurePlayer_some hq]
          | none => rw [ensurePlayer_none hq]

lemma startStream_connection {w : World} : (startStream w).1.connection = w.connection := by
  cases hc : w.connection with
  | none => rw [startStream_noConn hc, hc]
  | some s =>
      cases hu : w.STREAM_URL with
      | none => rw [startStream_noUrl hc hu]; simp [killCurrentProc, hc]
      | some url =>
          cases hp : w.audioPlayer with
          | none => rw [startStream_noPlayer hc hu hp]; simp [spawnProc, hc]
          | some p => rw [startStream_ok hc hu hp]; simp [spawnProc, hc]

lemma startStream_oldSessions {w : World} : (startStream w).1.oldSessions = w.oldSessions := by
  cases hc : w.connection with
  | none => rw [startStream_noConn hc]
  | some s =>
      cases hu : w.STREAM_URL with
      | none => rw [startStream_noUrl hc hu]; simp [killCurrentProc]
      | some url =>
          cases hp : w.audioPlayer with
          | none => rw [startStream_noPlayer hc hu hp]; simp [spawnProc]
          | some p => rw [startStream_ok hc hu hp]; simp [spawnProc]

lemma stopStream_idem (w : World) : stopStream (stopStream w) = stopStream w := by
  rw [stopStream_eq, stopStream_eq]
  cases hp : w.audioPlayer <;> cases hc : w.connection <;> cases hf : w.ffmpegProcess <;>
    simp [pushGrave]

/-- Demonstration state used by witness theorems: streaming with one live
process, one live session, the player playing at volume 1, and a pending
respawn timer. -/
def wDemo : World where
  currentVoiceChannelId := some "111"
  STREAM_URL := some "http://u"
  COOKIE := ""
  isStreaming := true
  ffmpegProcess := some { args := ["-re"], alive := true }
  oldProcs := []
  spawnCount := 1
  connection := some { channelId := "111", alive := true, subscribedPlayer := some 0 }
  oldSessions := []
  audioPlayer := some { id := 0, st := PlayerSt.Playing { volume := 1 } }
  playersCreated := 1
  handlerRegistrations := 1
  timers := [(FF_RESTART_DELAY, TimerKind.startStreamT)]

/-- C1: for every reachable program state, at most one live (non-killed)
transcoder subprocess and at most one non-destroyed voice session exist;
moreover every spawn of a new ffmpeg process first force-kills the
existing one if present (the previous handle enters the graveyard dead
while the fresh live process takes the handle), and every connect first
destroys the existing session if present. -/
theorem C1_at_most_one_live_proc_and_session :
    (∀ es : List Event,
        liveProcCount (run initialWorld es) ≤ 1 ∧
        liveSessionCount (run initialWorld es) ≤ 1)
    ∧ (∀ (w : World) (s : Session) (url : String) (p : Proc),
        w.connection = some s → w.STREAM_URL = some url → w.ffmpegProcess = some p →
        (startStream w).1.oldProcs = { p with alive := false } :: w.oldProcs ∧
        (startStream w).1.ffmpegProcess =
          some { args := mkFfmpegArgs w.COOKIE url, alive := true })
    ∧ (∀ (w : World) (ch : String) (s : Session),
        w.currentVoiceChannelId = some ch → w.connection = some s →
        (connectVoice w COutcome.ready).oldSessions =
          { s with alive := false } :: w.oldSessions) := by
  refine ⟨?_, ?_, ?_⟩
  · intro es
    have h := winv_run winv_initialWorld es
    exact ⟨liveProcCount_le_one h, liveSessionCount_le_one h⟩
  · intro w s url p hc hu hf
    cases hp : w.audioPlayer with
    | none =>
        rw [startStream_noPlayer hc hu hp]
        constructor
        · simp [spawnProc, pushGrave, hf]
        · simp [spawnProc]
    | some q =>
        rw [startStream_ok hc hu hp]
        constructor
        · simp [spawnProc, pushGrave, hf]
        · simp [spawnProc]
  · intro w ch s hch hc
    rw [connectVoice_ready hch, setupPlayer_oldSessions]
    simp [connJoin, hc]

/-- Witness for C1: the invariant at a concrete reachable state, and the
kill-before-spawn and destroy-before-connect facts at a concrete state
with a live process and a live session. -/
theorem C1_witness :
    (liveProcCount (run initialWorld []) ≤ 1 ∧ liveSessionCount (run initialWorld []) ≤ 1)
    ∧ (startStream wDemo).1.oldProcs = [{ args := ["-re"], alive := false }]
    ∧ (connectVoice wDemo COutcome.ready).oldSessions =
        [{ channelId := "111", alive := false, subscribedPlayer := some 0 }] :=
  ⟨C1_at_most_one_live_proc_and_session.1 [],
   (C1_at_most_one_live_proc_and_session.2.1 wDemo
      { channelId := "111", alive := true, subscribedPlayer := some 0 }
      "http://u" { args := ["-re"], alive := true } rfl rfl rfl).1,
   C1_at_most_one_live_proc_and_session.2.2 wDemo "111"
      { channelId := "111", alive := true, subscribedPlayer := some 0 } rfl rfl⟩

/-- C2: stopStream is idempotent and safe from any reachable state: after
one call the streaming flag is down and no live process or session
remains, and a second call changes nothing (in the model the library
destroy is idempotent per the spec interface, so both calls complete
without error). -/
theorem C2_stop_idempotent :
    ∀ es : List Event,
      (stopStream (run initialWorld es)).isStreaming = false
      ∧ stopStream (stopStream (run initialWorld es)) = stopStream (run initialWorld es)
      ∧ liveProcCount (stopStream (run initialWorld es)) = 0
      ∧ liveSessionCount (stopStream (run initialWorld es)) = 0 := by
  intro es
  have h := winv_run winv_initialWorld es
  refine ⟨?_, stopStream_idem _, liveProcCount_stopStream h, liveSessionCount_stopStream h⟩
  rw [stopStream_eq]

/-- Witness for C2 at the empty trace. -/
theorem C2_witness :
    (stopStream (run initialWorld [])).isStreaming = false
    ∧ stopStream (stopStream (run initialWorld [])) = stopStream (run initialWorld [])
    ∧ liveProcCount (stopStream (run initialWorld [])) = 0
    ∧ liveSessionCount (stopStream (run initialWorld [])) = 0 :=
  C2_stop_idempotent []

lemma startStream_ffmpeg {w : World} {s : Session} {url : String}
    (hc : w.connection = some s) (hu : w.STREAM_URL = some url) :
    (startStream w).1.ffmpegProcess =
      some { args := mkFfmpegArgs w.COOKIE url, alive := true } := by
  cases hp : w.audioPlayer with
  | none => rw [startStream_noPlayer hc hu hp]; simp [spawnProc]
  | some p => rw [startStream_ok hc hu hp]; simp [spawnProc]

lemma startStream_spawnCount {w : World} {s : Session} {url : String}
    (hc : w.connection = some s) (hu : w.STREAM_URL = some url) :
    (startStream w).1.spawnCount = w.spawnCount + 1 := by
  cases hp : w.audioPlayer with
  | none => rw [startStream_noPlayer hc hu hp]; simp [spawnProc]
  | some p => rw [startStream_ok hc hu hp]; simp [spawnProc]

/-- C3: a transcoder exit event while Streaming only schedules a respawn
timer with the fixed 5-second delay (the exit code is irrelevant and
nothing else, in particular no session state, is touched), and the timer
firing spawns a replacement process built from the COOKIE and STREAM_URL
held at that later moment, leaving the voice session untouched. -/
theorem C3_respawn_uses_current_config :
    FF_RESTART_DELAY = 5000
    ∧ (∀ (w : World) (c : Option Int), 0 < w.spawnCount → w.isStreaming = true →
        step w (Event.procExit c) = scheduleRespawn w)
    ∧ (∀ (w : World) (s : Session) (url : String),
        (FF_RESTART_DELAY, TimerKind.startStreamT) ∈ w.timers →
        w.connection = some s → w.STREAM_URL = some url →
        (step w Event.fireStartStream).ffmpegProcess =
            some { args := mkFfmpegArgs w.COOKIE url, alive := true }
        ∧ (step w Event.fireStartStream).connection = w.connection
        ∧ (step w Event.fireStartStream).oldSessions = w.oldSessions
        ∧ (step w Event.fireStartStream).spawnCount = w.spawnCount + 1) := by
  refine ⟨rfl, ?_, ?_⟩
  · intro w c hn _
    simp [step, hn]
  · intro w s url ht hc hu
    have hstep : step w Event.fireStartStream =
        (startStream { w with timers := w.timers.erase (FF_RESTART_DELAY, TimerKind.startStreamT) }).1 := by
      simp [step, ht]
    rw [hstep]
    have hc2 : ({ w with timers := w.timers.erase (FF_RESTART_DELAY, TimerKind.startStreamT) } : World).connection = some s := hc
    have hu2 : ({ w with timers := w.timers.erase (FF_RESTART_DELAY, TimerKind.startStreamT) } : World).STREAM_URL = some url := hu
    refine ⟨startStream_ffmpeg hc2 hu2, ?_, ?_, startStream_spawnCount hc2 hu2⟩
    · rw [startStream_connection]
    · rw [startStream_oldSessions]

/-- Witness for C3 at a concrete streaming state with a pending respawn
timer: the exit handler only schedules, and the firing timer spawns from
the current configuration without touching the session. -/
theorem C3_witness :
    step wDemo (Event.procExit (some 1)) = scheduleRespawn wDemo
    ∧ (step wDemo Event.fireStartStream).ffmpegProcess =
        some { args := mkFfmpegArgs "" "http://u", alive := true }
    ∧ (step wDemo Event.fireStartStream).connection = wDemo.connection :=
  ⟨C3_respawn_uses_current_config.2.1 wDemo (some 1) (by decide) rfl,
   (C3_respawn_uses_current_config.2.2 wDemo
      { channelId := "111", alive := true, subscribedPlayer := some 0 }
      "http://u" (by decide) rfl rfl).1,
   (C3_respawn_uses_current_config.2.2 wDemo
      { channelId := "111", alive := true, subscribedPlayer := some 0 }
      "http://u" (by decide) rfl rfl).2.1⟩

/-- C6: whenever startStream spawns (a connection object and a url exist),
the spawned process carries exactly the claimed argument list: -re, then
the Cookie header pair only when a cookie is configured, then -i url, the
fixed analysis and log-suppression flags, and the opus output arguments,
in that order. -/
theorem C6_spawn_argument_list :
    ∀ (w : World) (s : Session) (url : String),
      w.connection = some s → w.STREAM_URL = some url →
      (startStream w).1.ffmpegProcess =
        some { args := "-re" ::
                  ((if w.COOKIE ≠ "" then ["-headers", "Cookie: " ++ w.COOKIE] else []) ++
                    ["-i", url, "-analyzeduration", "0", "-loglevel", "0",
                      "-acodec", "libopus", "-f", "opus", "pipe:1"]),
               alive := true } := by
  intro w s url hc hu
  rw [startStream_ffmpeg hc hu]
  simp [mkFfmpegArgs]

/-- Witness for C6 in both cookie cases at concrete states. -/
theorem C6_witness :
    (startStream wDemo).1.ffmpegProcess =
      some { args := ["-re", "-i", "http://u", "-analyzeduration", "0", "-loglevel", "0",
                        "-acodec", "libopus", "-f", "opus", "pipe:1"],
             alive := true }
    ∧ (startStream { wDemo with COOKIE := "sid=1" }).1.ffmpegProcess =
      some { args := ["-re", "-headers", "Cookie: sid=1", "-i", "http://u",
                        "-analyzeduration", "0", "-loglevel", "0",
                        "-acodec", "libopus", "-f", "opus", "pipe:1"],
             alive := true } := by
  constructor
  · have := C6_spawn_argument_list wDemo
      { channelId := "111", alive := true, subscribedPlayer := some 0 } "http://u" rfl rfl
    rw [this]
    decide
  · have := C6_spawn_argument_list { wDemo with COOKIE := "sid=1" }
      { channelId := "111", alive := true, subscribedPlayer := some 0 } "http://u" rfl rfl
    rw [this]
    decide

/-- C9: every completed startStream wraps the new process output in a
fresh resource whose inline volume is set to 1.0 and plays it, so any
previously set volume is gone after every respawn or restart: whatever
the player held before, afterwards it plays at volume 1. -/
theorem C9_volume_reset_on_spawn :
    ∀ (w : World) (s : Session) (url : String) (p : Player),
      w.connection = some s → w.STREAM_URL = some url → w.audioPlayer = some p →
      (startStream w).1.audioPlayer =
          some { id := p.id, st := PlayerSt.Playing { volume := 1 } }
      ∧ (startStream w).2 = true := by
  intro w s url p hc hu hp
  rw [startStream_ok hc hu hp]
  constructor <;> simp [spawnProc]

/-- Witness for C9: a player previously playing at volume 2 is back at
volume 1 after startStream. -/
theorem C9_witness :
    (startStream { wDemo with
        audioPlayer := some { id := 0, st := PlayerSt.Playing { volume := 2 } } }).1.audioPlayer
      = some { id := 0, st := PlayerSt.Playing { volume := 1 } } :=
  (C9_volume_reset_on_spawn
    { wDemo with audioPlayer := some { id := 0, st := PlayerSt.Playing { volume := 2 } } }
    { channelId := "111", alive := true, subscribedPlayer := some 0 }
    "http://u" { id := 0, st := PlayerSt.Playing { volume := 2 } } rfl rfl rfl).1

lemma setupPlayer_audioPlayer_of_some {w : World} {p : Player}
    (hp : w.audioPlayer = some p) : (setupPlayer w).audioPlayer = some p := by
  cases hc : w.connection with
  | none => rw [setupPlayer_noConn hc]; exact hp
  | some s =>
      have hp2 : (ensurePlayer w).audioPlayer = some p := by
        rw [ensurePlayer_some hp]; exact hp
      rw [setupPlayer_eq hc hp2, ensurePlayer_some hp]
      exact hp

/-- C10: over the whole lifetime at most one audio player object is ever
created, the Idle and error handlers are registered exactly as often (so
exactly once once the player exists, never duplicated), every session only
ever has that one player (id 0) subscribed, and setupPlayer with an
existing player re-subscribes that same object unchanged. -/
theorem C10_single_player_ever :
    (∀ es : List Event,
        (run initialWorld es).playersCreated ≤ 1
        ∧ (run initialWorld es).handlerRegistrations = (run initialWorld es).playersCreated
        ∧ (∀ s, (run initialWorld es).connection = some s →
            s.subscribedPlayer = none ∨ s.subscribedPlayer = some 0)
        ∧ (∀ s ∈ (run initialWorld es).oldSessions,
            s.subscribedPlayer = none ∨ s.subscribedPlayer = some 0))
    ∧ (∀ (w : World) (p : Player), w.audioPlayer = some p →
        (setupPlayer w).audioPlayer = some p) := by
  constructor
  · intro es
    have h := winv_run winv_initialWorld es
    refine ⟨?_, h.regsEq, h.connSub, h.oldSub⟩
    rw [h.createdEq]
    cases hp : (run initialWorld es).audioPlayer <;> simp
  · intro w p hp
    exact setupPlayer_audioPlayer_of_some hp

/-- Witness for C10: the bound at a concrete trace, and the same player
object surviving a setupPlayer call at a concrete state. -/
theorem C10_witness :
    (run initialWorld []).playersCreated ≤ 1
    ∧ (setupPlayer wDemo).audioPlayer = some { id := 0, st := PlayerSt.Playing { volume := 1 } } :=
  ⟨(C10_single_player_ever.1 []).1,
   C10_single_player_ever.2 wDemo { id := 0, st := PlayerSt.Playing { volume := 1 } } rfl⟩

/-- Authorization test of the first guard of the message handler, lifted
to events; non-message events are unrelated to authorization. -/
def authorizedEv : Event → Bool
  | Event.message m _ => decide (m.channelType = "DM" ∧ m.authorId = OWNER_ID)
  | _ => true

/-- C8: a message that is not a DM from the owner is rejected before any
state change or reply, and dropping all such messages from a trace leaves
the final supervisor state unchanged, so two runs differing only in
unauthorized messages reach the same state. -/
theorem C8_unauthorized_noninterference :
    (∀ (w : World) (m : Msg) (o : COutcome),
        m.channelType ≠ "DM" ∨ m.authorId ≠ OWNER_ID →
        handleMessage w m o = ⟨w, [], false⟩)
    ∧ (∀ (w : World) (es : List Event),
        run w (es.filter authorizedEv) = run w es) := by
  have h1 : ∀ (w : World) (m : Msg) (o : COutcome),
      m.channelType ≠ "DM" ∨ m.authorId ≠ OWNER_ID →
      handleMessage w m o = ⟨w, [], false⟩ := by
    intro w m o h
    unfold handleMessage
    rw [if_pos h]
  refine ⟨h1, ?_⟩
  intro w es
  induction es generalizing w with
  | nil => rfl
  | cons e es ih =>
      rw [List.filter_cons]
      by_cases ha : authorizedEv e = true
      · rw [if_pos ha]
        show run (step w e) (List.filter authorizedEv es) = run (step w e) es
        exact ih (step w e)
      · have ha2 : authorizedEv e = false := by
          cases hb : authorizedEv e
          · rfl
          · exact absurd hb ha
        rw [if_neg (by simp [ha2])]
        cases e with
        | message m o =>
            have hm : m.channelType ≠ "DM" ∨ m.authorId ≠ OWNER_ID := by
              by_contra hcon
              push_neg at hcon
              have hx : authorizedEv (Event.message m o) = true := by
                simp [authorizedEv, hcon.1, hcon.2]
              rw [hx] at ha2
              cases ha2
            have hw : step w (Event.message m o) = w := by
              show (handleMessage w m o).world = w
              rw [h1 w m o hm]
            calc run w (List.filter authorizedEv es) = run w es := ih w
              _ = run (step w (Event.message m o)) es := by rw [hw]
              _ = run w (Event.message m o :: es) := rfl
        | procExit c => simp [authorizedEv] at ha2
        | fireStartStream => simp [authorizedEv] at ha2
        | fireReconnect o => simp [authorizedEv] at ha2
        | playerIdle => simp [authorizedEv] at ha2
        | playerError o => simp [authorizedEv] at ha2
        | voiceDisconnected r => simp [authorizedEv] at ha2

/-- Witness for C8: a concrete non-owner DM is a no-op with no reply, and
filtering it out of a concrete trace does not change the outcome. -/
theorem C8_witness :
    handleMessage initialWorld
        { channelType := "DM", authorId := "intruder", content := "stop" }
        COutcome.ready
      = { world := initialWorld, replies := [], threw := false }
    ∧ run initialWorld
        (List.filter authorizedEv
          [Event.message { channelType := "DM", authorId := "intruder", content := "stop" }
            COutcome.ready])
      = run initialWorld
          [Event.message { channelType := "DM", authorId := "intruder", content := "stop" }
            COutcome.ready] :=
  ⟨C8_unauthorized_noninterference.1 initialWorld
      { channelType := "DM", authorId := "intruder", content := "stop" }
      COutcome.ready (Or.inr (by decide)),
   C8_unauthorized_noninterference.2 initialWorld
      [Event.message { channelType := "DM", authorId := "intruder", content := "stop" }
        COutcome.ready]⟩

lemma handleMessage_auth {w : World} {m : Msg} {o : COutcome}
    (h1 : m.channelType = "DM") (h2 : m.authorId = OWNER_ID) :
    handleMessage w m o =
      dispatch w (lowerStr ((tokenize m.content).headD "")) (tokenize m.content).tail o := by
  unfold handleMessage
  rw [if_neg (by simp [h1, h2])]

lemma dispatch_volume {w : World} {args : List String} {o : COutcome} :
    dispatch w "volume" args o = cmdVolume w args := by
  unfold dispatch
  rw [if_neg (by decide), if_neg (by decide), if_neg (by decide), if_neg (by decide),
      if_neg (by decide), if_neg (by decide), if_neg (by decide), if_pos rfl]

lemma cmdVolume_noParse {w : World} {args : List String}
    (hv : args.head?.bind parseFloatQ = none) :
    cmdVolume w args = { world := w, replies := [Reply.usageVolume], threw := false } := by
  rw [cmdVolume.eq_def, hv]
  cases hp : w.audioPlayer <;> simp

lemma cmdVolume_noPlayer {w : World} {args : List String}
    (hp : w.audioPlayer = none) :
    cmdVolume w args = { world := w, replies := [Reply.usageVolume], threw := false } := by
  rw [cmdVolume.eq_def, hp]

lemma cmdVolume_outOfRange {w : World} {args : List String} {p : Player} {v : ℚ}
    (hp : w.audioPlayer = some p) (hv : args.head?.bind parseFloatQ = some v)
    (h : ¬(0 ≤ v ∧ v ≤ 2)) :
    cmdVolume w args = { world := w, replies := [Reply.usageVolume], threw := false } := by
  rw [cmdVolume.eq_def, hp, hv]
  simp [h]

lemma cmdVolume_playing {w : World} {args : List String} {i : Nat} {r : Resource} {v : ℚ}
    (hp : w.audioPlayer = some { id := i, st := PlayerSt.Playing r })
    (hv : args.head?.bind parseFloatQ = some v) (h0 : 0 ≤ v) (h2 : v ≤ 2) :
    cmdVolume w args =
      { world := { w with audioPlayer := some { id := i, st := PlayerSt.Playing { volume := v } } },
        replies := [Reply.volumeSet v], threw := false } := by
  rw [cmdVolume.eq_def, hp, hv]
  simp [h0, h2]

lemma cmdVolume_idle {w : World} {args : List String} {i : Nat} {v : ℚ}
    (hp : w.audioPlayer = some { id := i, st := PlayerSt.Idle })
    (hv : args.head?.bind parseFloatQ = some v) (h0 : 0 ≤ v) (h2 : v ≤ 2) :
    cmdVolume w args = { world := w, replies := [], threw := true } := by
  rw [cmdVolume.eq_def, hp, hv]
  simp [h0, h2]

/-- C5 (amended): the volume command validates its argument against the
range 0 to 2: non-numeric or out-of-range values get the usage reply and
mutate nothing; an in-range value while a resource is playing sets the
sink volume to that value and confirms it; with no player object the
usage reply is sent; but with an existing idle player (nothing playing)
an in-range value makes the handler throw: no reply is sent and nothing
is mutated, instead of the no-op-with-reply the original claim states. -/
theorem C5_volume_validation :
    ∀ (w : World) (m : Msg) (o : COutcome) (a : String),
      m.channelType = "DM" → m.authorId = OWNER_ID →
      tokenize m.content = ["volume", a] →
      ((parseFloatQ a = none →
          handleMessage w m o = { world := w, replies := [Reply.usageVolume], threw := false })
       ∧ (∀ v : ℚ, parseFloatQ a = some v → ¬(0 ≤ v ∧ v ≤ 2) →
          handleMessage w m o = { world := w, replies := [Reply.usageVolume], threw := false })
       ∧ (w.audioPlayer = none →
          handleMessage w m o = { world := w, replies := [Reply.usageVolume], threw := false })
       ∧ (∀ (v : ℚ) (i : Nat) (r : Resource), parseFloatQ a = some v → 0 ≤ v → v ≤ 2 →
          w.audioPlayer = some { id := i, st := PlayerSt.Playing r } →
          handleMessage w m o =
            { world := { w with audioPlayer := some { id := i, st := PlayerSt.Playing { volume := v } } },
              replies := [Reply.volumeSet v], threw := false })
       ∧ (∀ (v : ℚ) (i : Nat), parseFloatQ a = some v → 0 ≤ v → v ≤ 2 →
          w.audioPlayer = some { id := i, st := PlayerSt.Idle } →
          handleMessage w m o = { world := w, replies := [], threw := true })) := by
  intro w m o a h1 h2 htok
  have hd : handleMessage w m o = cmdVolume w [a] := by
    rw [handleMessage_auth h1 h2, htok]
    have hcmd : lowerStr ((["volume", a] : List String).headD "") = "volume" := by
      show lowerStr "volume" = "volume"
      decide
    rw [hcmd]
    exact dispatch_volume
  have hbind : ∀ v : Option ℚ, parseFloatQ a = v →
      ([a] : List String).head?.bind parseFloatQ = v := by
    intro v hv
    simpa using hv
  refine ⟨?_, ?_, ?_, ?_, ?_⟩
  · intro hn
    rw [hd, cmdVolume_noParse (hbind none hn)]
  · intro v hv hrange
    cases hp : w.audioPlayer with
    | none => rw [hd, cmdVolume_noPlayer hp]
    | some p => rw [hd, cmdVolume_outOfRange hp (hbind (some v) hv) hrange]
  · intro hp
    rw [hd, cmdVolume_noPlayer hp]
  · intro v i r hv h0 hr2 hp
    rw [hd, cmdVolume_playing hp (hbind (some v) hv) h0 hr2]
  · intro v i hv h0 hr2 hp
    rw [hd, cmdVolume_idle hp (hbind (some v) hv) h0 hr2]

/-- Message constants used by concrete traces. -/
def mSetvc : Msg where
  channelType := "DM"
  authorId := OWNER_ID
  content := "setvc 111"

/-- Reconnect command message. -/
def mReconnect : Msg where
  channelType := "DM"
  authorId := OWNER_ID
  content := "reconnect"

/-- Volume command message with an in-range argument. -/
def mVolume1 : Msg where
  channelType := "DM"
  authorId := OWNER_ID
  content := "volume 1"

/-- Reachable state with an existing but idle player: after setvc and a
reconnect, the player object has been created and subscribed but nothing
has ever played. -/
def wIdle : World :=
  run initialWorld
    [Event.message mSetvc COutcome.ready, Event.message mReconnect COutcome.ready]

/-- Counterexample for C5: in the reachable state wIdle the player exists
and is idle (nothing is currently playing), and the in-range command
volume 1 makes the handler throw with no reply and no mutation — the
original claim says the command never crashes and still informs the
operator. -/
theorem C5_counterexample :
    wIdle.audioPlayer = some { id := 0, st := PlayerSt.Idle }
    ∧ handleMessage wIdle mVolume1 COutcome.ready
        = { world := wIdle, replies := [], threw := true } := by
  constructor
  · decide
  · decide

/-- Witness for C5 at concrete inputs: a non-numeric argument and an
out-of-range argument get the usage reply without mutation, and an
in-range argument while playing sets the sink volume and confirms it. -/
theorem C5_witness :
    handleMessage wDemo
        { channelType := "DM", authorId := OWNER_ID, content := "volume abc" } COutcome.ready
      = { world := wDemo, replies := [Reply.usageVolume], threw := false }
    ∧ handleMessage wDemo
        { channelType := "DM", authorId := OWNER_ID, content := "volume 3" } COutcome.ready
      = { world := wDemo, replies := [Reply.usageVolume], threw := false }
    ∧ handleMessage wDemo
        { channelType := "DM", authorId := OWNER_ID, content := "volume 2" } COutcome.ready
      = { world := { wDemo with audioPlayer := some { id := 0, st := PlayerSt.Playing { volume := 2 } } },
          replies := [Reply.volumeSet 2], threw := false } :=
  ⟨(C5_volume_validation wDemo
      { channelType := "DM", authorId := OWNER_ID, content := "volume abc" }
      COutcome.ready "abc" rfl rfl (by decide)).1 (by decide),
   ((C5_volume_validation wDemo
      { channelType := "DM", authorId := OWNER_ID, content := "volume 3" }
      COutcome.ready "3" rfl rfl (by decide)).2.1 3 (by decide) (by decide)),
   ((C5_volume_validation wDemo
      { channelType := "DM", authorId := OWNER_ID, content := "volume 2" }
      COutcome.ready "2" rfl rfl (by decide)).2.2.2.1 2 0 { volume := 1 }
      (by decide) (by decide) (by decide) rfl)⟩

lemma cmdSetvc_replies {w : World} {args : List String} {o : COutcome} :
    (cmdSetvc w args o).replies = [Reply.vcSet args.head?] := by
  simp only [cmdSetvc]
  split <;> rfl

lemma cmdSetstream_replies {w : World} {args : List String} {o : COutcome} :
    (cmdSetstream w args o).replies = [Reply.streamUrlSet args.head?] := by
  simp only [cmdSetstream]
  split <;> rfl

lemma cmdSetcookie_replies {w : World} {args : List String} {o : COutcome} :
    (cmdSetcookie w args o).replies = [Reply.cookieUpdated] := by
  simp only [cmdSetcookie]
  split <;> rfl

lemma cmdStart_replies {w : World} {o : COutcome} :
    (cmdStart w o).replies.length = 1 ∨ (cmdStart w o).replies.length = 2 := by
  simp only [cmdStart]
  cases hch : w.currentVoiceChannelId with
  | none => left; rfl
  | some ch =>
      simp only
      split
      · right; rfl
      · left; rfl

lemma cmdVolume_replies {w : World} {args : List String} :
    (cmdVolume w args).replies.length = 1
    ∨ ((cmdVolume w args).replies = [] ∧ (cmdVolume w args).threw = true) := by
  rw [cmdVolume.eq_def]
  split
  · split
    · split
      · left; rfl
      · right; exact ⟨rfl, rfl⟩
    · left; rfl
  · left; rfl

/-- Command verbs recognized by the switch statement. -/
def knownVerbs : List String :=
  ["setvc", "switchvc", "setstream", "setcookie", "start", "stop",
   "restart", "reconnect", "volume", "status", "info", "help"]

set_option maxHeartbeats 2000000 in
lemma dispatch_replies (w : World) (cmd : String) (args : List String) (o : COutcome) :
    ((cmd ≠ "start" ∧ cmd ≠ "volume") → (dispatch w cmd args o).replies.length = 1)
    ∧ (cmd = "start" →
        (dispatch w cmd args o).replies.length = 1
        ∨ (dispatch w cmd args o).replies.length = 2)
    ∧ (cmd = "volume" →
        (dispatch w cmd args o).replies.length = 1
        ∨ ((dispatch w cmd args o).replies = [] ∧ (dispatch w cmd args o).threw = true))
    ∧ (cmd ∉ knownVerbs → (dispatch w cmd args o).replies = [Reply.unknownHint]) := by
  unfold dispatch
  split
  · next h =>
      refine ⟨fun _ => ?_, fun hs => ?_, fun hv => ?_, fun hk => ?_⟩
      · rw [cmdSetvc_replies]; rfl
      · rcases h with h | h <;> rw [h] at hs <;> exact absurd hs (by decide)
      · rcases h with h | h <;> rw [h] at hv <;> exact absurd hv (by decide)
      · exfalso; apply hk; rcases h with h | h <;> rw [h] <;> decide
  · next h1 =>
      split
      · next h =>
          refine ⟨fun _ => ?_, fun hs => ?_, fun hv => ?_, fun hk => ?_⟩
          · rw [cmdSetstream_replies]; rfl
          · rw [h] at hs; exact absurd hs (by decide)
          · rw [h] at hv; exact absurd hv (by decide)
          · exfalso; apply hk; rw [h]; decide
      · next h2 =>
          split
          · next h =>
              refine ⟨fun _ => ?_, fun hs => ?_, fun hv => ?_, fun hk => ?_⟩
              · rw [cmdSetcookie_replies]; rfl
              · rw [h] at hs; exact absurd hs (by decide)
              · rw [h] at hv; exact absurd hv (by decide)
              · exfalso; apply hk; rw [h]; decide
          · next h3 =>
              split
              · next h =>
                  refine ⟨fun hns => ?_, fun _ => ?_, fun hv => ?_, fun hk => ?_⟩
                  · exact absurd h hns.1
                  · exact cmdStart_replies
                  · rw [h] at hv; exact absurd hv (by decide)
                  · exfalso; apply hk; rw [h]; decide
              · next h4 =>
                  split
                  · next h =>
                      refine ⟨fun _ => rfl, fun hs => ?_, fun hv => ?_, fun hk => ?_⟩
                      · rw [h] at hs; exact absurd hs (by decide)
                      · rw [h] at hv; exact absurd hv (by decide)
                      · exfalso; apply hk; rw [h]; decide
                  · next h5 =>
                      split
                      · next h =>
                          refine ⟨fun _ => rfl, fun hs => ?_, fun hv => ?_, fun hk => ?_⟩
                          · rw [h] at hs; exact absurd hs (by decide)
                          · rw [h] at hv; exact absurd hv (by decide)
                          · exfalso; apply hk; rw [h]; decide
                      · next h6 =>
                          split
                          · next h =>
                              refine ⟨fun _ => rfl, fun hs => ?_, fun hv => ?_, fun hk => ?_⟩
                              · rw [h] at hs; exact absurd hs (by decide)
                              · rw [h] at hv; exact absurd hv (by decide)
                              · exfalso; apply hk; rw [h]; decide
                          · next h7 =>
                              split
                              · next h =>
                                  refine ⟨fun hns => ?_, fun hs => ?_, fun _ => ?_, fun hk => ?_⟩
                                  · exact absurd h hns.2
                                  · rw [h] at hs; exact absurd hs (by decide)
                                  · exact cmdVolume_replies
                                  · exfalso; apply hk; rw [h]; decide
                              · next h8 =>
                                  split
                                  · next h =>
                                      refine ⟨fun _ => rfl, fun hs => ?_, fun hv => ?_, fun hk => ?_⟩
                                      · rw [h] at hs; exact absurd hs (by decide)
                                      · rw [h] at hv; exact absurd hv (by decide)
                                      · exfalso; apply hk; rw [h]; decide
                                  · next h9 =>
                                      split
                                      · next h =>
                                          refine ⟨fun _ => rfl, fun hs => ?_, fun hv => ?_, fun hk => ?_⟩
                                          · rw [h] at hs; exact absurd hs (by decide)
                                          · rw [h] at hv; exact absurd hv (by decide)
                                          · exfalso; apply hk; rw [h]; decide
                                      · next h10 =>
                                          split
                                          · next h =>
                                              refine ⟨fun _ => rfl, fun hs => ?_, fun hv => ?_, fun hk => ?_⟩
                                              · rw [h] at hs; exact absurd hs (by decide)
                                              · rw [h] at hv; exact absurd hv (by decide)
                                              · exfalso; apply hk; rw [h]; decide
                                          · next h11 =>
                                              exact ⟨fun _ => rfl, fun hs => absurd hs h4,
                                                     fun hv => absurd hv h8, fun _ => rfl⟩

/-- C7 (amended): every accepted operator message gets at least one reply
except one throwing case, and the counts are: exactly one reply for every
verb other than start and volume; one or two for start (two when the
pipeline start completes, the progress reply alone when it throws or no
channel is set); one for volume unless an in-range value meets an idle
player, in which case the handler throws with no reply; and unknown verbs
get the usage hint pointing at help. The original claim of exactly one
reply for every command fails on start. -/
theorem C7_amended_reply_counts :
    ∀ (w : World) (m : Msg) (o : COutcome),
      m.channelType = "DM" → m.authorId = OWNER_ID →
      ((lowerStr ((tokenize m.content).headD "") ≠ "start" ∧
          lowerStr ((tokenize m.content).headD "") ≠ "volume" →
            (handleMessage w m o).replies.length = 1)
       ∧ (lowerStr ((tokenize m.content).headD "") = "start" →
            (handleMessage w m o).replies.length = 1
            ∨ (handleMessage w m o).replies.length = 2)
       ∧ (lowerStr ((tokenize m.content).headD "") = "volume" →
            (handleMessage w m o).replies.length = 1
            ∨ ((handleMessage w m o).replies = [] ∧ (handleMessage w m o).threw = true))
       ∧ (lowerStr ((tokenize m.content).headD "") ∉ knownVerbs →
            (handleMessage w m o).replies = [Reply.unknownHint])) := by
  intro w m o h1 h2
  rw [handleMessage_auth h1 h2]
  exact dispatch_replies w _ _ o

/-- Start command message. -/
def mStart : Msg where
  channelType := "DM"
  authorId := OWNER_ID
  content := "start"

/-- Reachable state right after the owner set the voice channel. -/
def wAfterSetvc : World :=
  run initialWorld [Event.message mSetvc COutcome.ready]

/-- Counterexample for C7: in the reachable state after setvc, the start
command produces two replies (the progress and the completion message),
not exactly one as the original claim states. -/
theorem C7_counterexample :
    (handleMessage wAfterSetvc mStart COutcome.ready).replies
      = [Reply.starting, Reply.streamingStarted] := by
  decide

/-- Witness for C7 at concrete inputs: a status command gets exactly one
reply and an unknown verb gets the usage hint. -/
theorem C7_witness :
    (handleMessage initialWorld
        { channelType := "DM", authorId := OWNER_ID, content := "status" }
        COutcome.ready).replies.length = 1
    ∧ (handleMessage initialWorld
        { channelType := "DM", authorId := OWNER_ID, content := "blah" }
        COutcome.ready).replies = [Reply.unknownHint] :=
  ⟨(C7_amended_reply_counts initialWorld
      { channelType := "DM", authorId := OWNER_ID, content := "status" }
      COutcome.ready rfl rfl).1 (by decide),
   (C7_amended_reply_counts initialWorld
      { channelType := "DM", authorId := OWNER_ID, content := "blah" }
      COutcome.ready rfl rfl).2.2.2 (by decide)⟩

lemma setupPlayer_connection_alive {w : World} :
    ((setupPlayer w).connection).map (fun s => s.alive)
      = (w.connection).map (fun s => s.alive) := by
  cases hc : w.connection with
  | none => rw [setupPlayer_noConn hc, hc]
  | some s =>
      cases hp : (ensurePlayer w).audioPlayer with
      | none =>
          exfalso
          have := ensurePlayer_isSome (w := w)
          simp [hp] at this
      | some p =>
          rw [setupPlayer_eq hc hp]
          rfl

/-- Stop command message. -/
def mStop : Msg where
  channelType := "DM"
  authorId := OWNER_ID
  content := "stop"

/-- Reachable trace: set the channel, start streaming, observe a process
exit (which schedules the respawn timer), then stop. -/
def c4TraceStop : List Event :=
  [Event.message mSetvc COutcome.ready, Event.message mStart COutcome.ready,
   Event.procExit (some 1), Event.message mStop COutcome.ready]

/-- The same trace with the pending respawn timer firing after the stop. -/
def c4TraceFull : List Event :=
  c4TraceStop ++ [Event.fireStartStream]

/-- Counterexample for C4: after the stop the supervisor is Stopped and
the respawn timer scheduled by the earlier exit is still pending; when it
fires, a new ffmpeg process is spawned and the streaming flag goes back
up — the retry iteration does not check the supervisor state, because
stopStream leaves the connection handle set. -/
theorem C4_counterexample :
    (run initialWorld c4TraceStop).isStreaming = false
    ∧ (FF_RESTART_DELAY, TimerKind.startStreamT) ∈ (run initialWorld c4TraceStop).timers
    ∧ (run initialWorld c4TraceFull).isStreaming = true
    ∧ (run initialWorld c4TraceFull).spawnCount = 2
    ∧ liveProcCount (run initialWorld c4TraceFull) = 1 := by
  refine ⟨by decide, by decide, by decide, by decide, by decide⟩

/-- C4 (amended): a stop does not interrupt pending retry loops. After
stopStream the streaming flag is down but the connection handle still
holds the (destroyed) session object and the channel id and pending
timers are untouched, so a pending respawn that runs startStream
afterwards spawns a new process from the current configuration (and puts
the streaming flag back up when the player object exists), and a pending
connectVoice retry re-establishes a live session. No retry iteration
checks the supervisor state. -/
theorem C4_amended_stop_does_not_interrupt :
    ∀ (w : World) (s : Session) (url : String),
      w.connection = some s → w.STREAM_URL = some url →
      ((stopStream w).isStreaming = false
       ∧ (stopStream w).connection = some { s with alive := false }
       ∧ (stopStream w).currentVoiceChannelId = w.currentVoiceChannelId
       ∧ (stopStream w).timers = w.timers)
      ∧ ((startStream (stopStream w)).1.spawnCount = w.spawnCount + 1
         ∧ (startStream (stopStream w)).1.ffmpegProcess =
             some { args := mkFfmpegArgs w.COOKIE url, alive := true }
         ∧ (∀ p, w.audioPlayer = some p →
             (startStream (stopStream w)).1.isStreaming = true))
      ∧ (∀ ch, w.currentVoiceChannelId = some ch →
          ((connectVoice (stopStream w) COutcome.ready).connection).map (fun t => t.alive)
            = some true) := by
  intro w s url hc hu
  have hc1 : (stopStream w).connection = some { s with alive := false } := by
    rw [stopStream_eq, hc]
    rfl
  have hu1 : (stopStream w).STREAM_URL = some url := by
    rw [stopStream_eq]
    exact hu
  refine ⟨⟨?_, hc1, ?_, ?_⟩, ⟨?_, ?_, ?_⟩, ?_⟩
  · rw [stopStream_eq]
  · rw [stopStream_eq]
  · rw [stopStream_eq]
  · rw [startStream_spawnCount hc1 hu1, stopStream_eq]
  · rw [startStream_ffmpeg hc1 hu1, stopStream_eq]
  · intro p hp
    have hp1 : (stopStream w).audioPlayer = some { id := p.id, st := PlayerSt.Idle } := by
      rw [stopStream_eq, hp]
      rfl
    rw [startStream_ok hc1 hu1 hp1]
  · intro ch hch
    have hch1 : (stopStream w).currentVoiceChannelId = some ch := by
      rw [stopStream_eq]
      exact hch
    rw [connectVoice_ready hch1, setupPlayer_connection_alive]
    simp [connJoin]

/-- Witness for C4 (amended) at a concrete streaming state. -/
theorem C4_witness :
    (stopStream wDemo).isStreaming = false
    ∧ (startStream (stopStream wDemo)).1.spawnCount = 2
    ∧ (startStream (stopStream wDemo)).1.isStreaming = true
    ∧ ((connectVoice (stopStream wDemo) COutcome.ready).connection).map (fun t => t.alive)
        = some true :=
  ⟨(C4_amended_stop_does_not_interrupt wDemo
      { channelId := "111", alive := true, subscribedPlayer := some 0 }
      "http://u" rfl rfl).1.1,
   (C4_amended_stop_does_not_interrupt wDemo
      { channelId := "111", alive := true, subscribedPlayer := some 0 }
      "http://u" rfl rfl).2.1.1,
   (C4_amended_stop_does_not_interrupt wDemo
      { channelId := "111", alive := true, subscribedPlayer := some 0 }
      "http://u" rfl rfl).2.1.2.2
      { id := 0, st := PlayerSt.Playing { volume := 1 } } rfl,
   (C4_amended_stop_does_not_interrupt wDemo
      { channelId := "111", alive := true, subscribedPlayer := some 0 }
      "http://u" rfl rfl).2.2 "111" rfl⟩
